import Mathlib

/-!
Shallow embedding of the forecaster-make-scraper repository.

The repository holds near-duplicate script variants of one extraction
pipeline; we embed each variant that the specification's claims cite:

* `FetchScript`   — the fetch-only script in `src/scripts/fetch_forecaster.js`
  (first document): regex extraction of series data from raw HTML, then a
  row-building loop with no trimming, no Price filter, no rounding, and an
  unconditional webhook post.
* `PwShared`      — the first Playwright script in `src/unnamed/part_000`:
  one browser and one context shared across targets, `waitForApexSeries`
  poll loop, `scrapeTimeframe` per target, `process.exit(1)` inside the
  `catch` of `main`.
* `PwPerTarget`   — the second Playwright script in `src/unnamed/part_000`:
  one browser per target (`scrapeOne`), `scrapeApexSeriesFromPage` with the
  trim + Price filter and `round2` rounding, sequential 3m then 1m.

JavaScript numbers are modelled as rationals (ℚ); `NaN`-valued inputs are
outside the modelled universe (chart data points are null, undefined,
booleans, or finite numbers here).  Fallible steps (HTTP, navigation,
polling) are modelled as explicit outcome parameters, and each script's
`main` is a function from those outcomes to an observable run result
(pipeline attempts per target, the delivered batch if any, exit code).
-/

/-- A JavaScript value as it may appear in a raw chart point coordinate. -/
inductive JVal where
  | null
  | undef
  | num (q : ℚ)
  | bool (b : Bool)
deriving DecidableEq, Repr

/-- JavaScript `v == null`, true exactly for `null` and `undefined`. -/
def JVal.isNullish : JVal → Bool
  | .null => true
  | .undef => true
  | _ => false

/-- JavaScript `Number(v)` on the modelled universe.  `Number(null) = 0`,
`Number(true) = 1`, `Number(false) = 0`.  (`Number(undefined)` is `NaN`;
every use site in the scripts is guarded by an `== null` check, so the
`undef` branch is unreachable and its value immaterial.) -/
def JVal.toNumD : JVal → ℚ
  | .null => 0
  | .undef => 0
  | .num q => q
  | .bool b => if b then 1 else 0

/-- A raw chart data point as iterated by the scripts: either not an object
(skipped or yielding undefined coordinates) or a `{x, y}` pair. -/
inductive PointV where
  | nonObj
  | pt (x y : JVal)
deriving DecidableEq, Repr

/-- A raw chart series as discovered in the page or parsed from HTML:
`name` may be missing (undefined), `data` may be missing or not an array
(`none`). -/
structure RawSeries where
  name : Option String
  data : Option (List PointV)
deriving DecidableEq, Repr

/-- JavaScript truncation of a (possibly fractional) millisecond value to
an integer time value, as `new Date(ms)` performs: toward zero
(T-division of the reduced fraction). -/
def jsTruncToInt (q : ℚ) : ℤ :=
  Int.tdiv q.num q.den

/-- Zero-pad a day or month number to two digits, as
`String(n).padStart(2, "0")` does for values below 100. -/
def pad2 (n : ℕ) : String :=
  if n < 10 then "0" ++ toString n else toString n

/-- Proleptic-Gregorian civil date from a count of days since 1970-01-01
(UTC), the arithmetic underlying `Date.prototype.getUTCFullYear` /
`getUTCMonth` / `getUTCDate`.  Returns (year, month 1–12, day 1–31). -/
def civilFromDays (z : ℤ) : ℤ × ℕ × ℕ :=
  let z2 := z + 719468
  let era := Int.fdiv z2 146097
  let doe := (z2 - era * 146097).toNat
  let yoe := (doe - doe / 1460 + doe / 36524 - doe / 146096) / 365
  let y := (yoe : ℤ) + era * 400
  let doy := doe - (365 * yoe + yoe / 4 - yoe / 100)
  let mp := (5 * doy + 2) / 153
  let d := doy - (153 * mp + 2) / 5 + 1
  let m := if mp < 10 then mp + 3 else mp - 9
  (if m ≤ 2 then y + 1 else y, m, d)

/-- Epoch-milliseconds to `YYYY-MM-DD` (UTC), the common meaning of the
scripts' `toYMD`, `toISODate` and `toISODateFromMs`: day index is the
floor of ms / 86400000, then civil-date conversion, then padded
formatting.  (`toISOString().slice(0, 10)` agrees with the hand-formatted
variants for all years 1000–9999.) -/
def isoDateOfMs (ms : ℚ) : String :=
  let days := Int.fdiv (jsTruncToInt ms) 86400000
  let c := civilFromDays days
  toString c.1 ++ "-" ++ pad2 c.2.1 ++ "-" ++ pad2 c.2.2

/-- `Math.round(x * 100) / 100` on exact rationals: round half toward
positive infinity at two decimals.  This is also the rounding performed by
`Number(y.toFixed(2))` (ECMA-262 `toFixed` picks the larger candidate on a
tie). -/
def round2 (q : ℚ) : ℚ :=
  (⌊q * 100 + 1 / 2⌋ : ℚ) / 100

/-- Whitespace for the purposes of `String.prototype.trim`. -/
def isWsChar (c : Char) : Bool :=
  c = ' ' || c = '\t' || c = '\n' || c = '\r'

/-- JavaScript `s.trim()`: strip leading and trailing whitespace. -/
def trimStr (s : String) : String :=
  String.mk (((s.data.dropWhile isWsChar).reverse.dropWhile isWsChar).reverse)

/-- JavaScript `s.toLowerCase()` (ASCII range, which covers the labels the
scripts compare). -/
def lowerStr (s : String) : String :=
  String.mk (s.data.map Char.toLower)

/-- JavaScript `s.toUpperCase()` (ASCII range). -/
def upperStr (s : String) : String :=
  String.mk (s.data.map Char.toUpper)

/-- Per-run configuration consumed by the scripts: the symbol and the
precomputed forecast date string. -/
structure Cfg where
  ticker : String
  forecastDate : String
deriving DecidableEq, Repr

/-- The canonical output row (`Ticker, Forecast_Date, Target_Date,
Scenario, Predicted_Price, Horizon/Timeframe`). -/
structure Row where
  ticker : String
  forecastDate : String
  targetDate : String
  scenario : String
  predictedPrice : ℚ
  timeframe : String
deriving DecidableEq, Repr

/-- `s?.name || "Unknown"` as used by the fetch-only script and the first
Playwright script: a missing or empty name becomes `"Unknown"`. -/
def scenarioOf (name : Option String) : String :=
  match name with
  | none => "Unknown"
  | some n => if n = "" then "Unknown" else n

/-- Observable result of one run: how many times each target's extraction
pipeline was executed (first = the target scraped first by that script),
the batch handed to the webhook if the post was made at all, and the
process exit code. -/
structure RunResult where
  attemptsFirst : ℕ
  attemptsSecond : ℕ
  delivered : Option (List Row)
  exitCode : ℕ
deriving DecidableEq, Repr

/-- `!MAKE_WEBHOOK_URL`: the env var is absent or the empty string. -/
def webhookMissing : Option String → Bool
  | none => true
  | some s => s = ""

namespace FetchScript

/-!
`src/scripts/fetch_forecaster.js` (first document): fetch-only script.
Its row loop in `fetchForecast` is

```
for (const s of series) {
  const scenario = s?.name || "Unknown";
  const points = Array.isArray(s?.data) ? s.data : [];
  for (const p of points) {
    if (!p || typeof p !== "object") continue;
    if (p.x == null || p.y == null) continue;
    rows.push({ Ticker: SYMBOL.toUpperCase(), Forecast_Date: FORECAST_DATE,
                Target_Date: toYMD(p.x), Scenario: scenario,
                Predicted_Price: Number(p.y), Horizon: horizon });
  }
}
```

No trimming, no filtering of the historical "Price" series (that filter is
present only as a comment in `main`), and no rounding of the price.
-/

/-- `toYMD`: `new Date(Number(ms)).toISOString().slice(0, 10)`. -/
def toYMD (ms : ℚ) : String := isoDateOfMs ms

/-- One point of the `fetchForecast` row loop.  A non-object entry or a
nullish coordinate is skipped; otherwise a row is pushed with the raw
(unrounded) y value. -/
def pointRow (cfg : Cfg) (horizon scen : String) : PointV → Option Row
  | .nonObj => none
  | .pt x y =>
    if x.isNullish || y.isNullish then none
    else some { ticker := upperStr cfg.ticker, forecastDate := cfg.forecastDate,
                targetDate := toYMD x.toNumD, scenario := scen,
                predictedPrice := y.toNumD, timeframe := horizon }

/-- The rows built from one parsed series by `fetchForecast`. -/
def seriesRows (cfg : Cfg) (horizon : String) (s : RawSeries) : List Row :=
  (s.data.getD []).filterMap (pointRow cfg horizon (scenarioOf s.name))

/-- The full row list `fetchForecast` returns from a parsed `series`
array.  Note: it may be empty; the script has no empty-result check. -/
def fetchRows (cfg : Cfg) (horizon : String) (series : List RawSeries) : List Row :=
  series.flatMap (seriesRows cfg horizon)

/-- How one `fetchForecast(horizon)` call can go: the HTTP response is not
ok, the series regex does not match, the repaired blob fails to parse, or
a series array is obtained. -/
inductive FetchOutcome where
  | httpError
  | noMatch
  | parseError
  | parsed (series : List RawSeries)

/-- Errors `fetchForecast` can throw. -/
inductive FetchErr where
  | httpError
  | noMatch
  | parseError
deriving DecidableEq, Repr

/-- `fetchForecast(horizon)` as a function of its outcome: the three throw
sites, or the normalized rows (returned even when empty). -/
def fetchForecast (cfg : Cfg) (horizon : String) : FetchOutcome → Except FetchErr (List Row)
  | .httpError => .error .httpError
  | .noMatch => .error .noMatch
  | .parseError => .error .parseError
  | .parsed series => .ok (fetchRows cfg horizon series)

/-- `main`: `Promise.all` of the 1m and 3m fetches (both are started, so
both count one attempt); on any rejection the catch block exits 1 without
posting; otherwise the concatenated rows — even a fully empty batch — are
posted to the webhook, and the exit code reflects only the post's
success. -/
def main (cfg : Cfg) (o1 o3 : FetchOutcome) (deliveryOk : Bool) : RunResult :=
  match fetchForecast cfg "1m" o1, fetchForecast cfg "3m" o3 with
  | .ok r1, .ok r3 =>
    if deliveryOk then ⟨1, 1, some (r1 ++ r3), 0⟩
    else ⟨1, 1, some (r1 ++ r3), 1⟩
  | _, _ => ⟨1, 1, none, 1⟩

/-- The whole process: the module-top guard
`if (!MAKE_WEBHOOK_URL) { console.error(...); process.exit(1); }`
runs before `main()` is invoked, so a missing webhook URL exits 1 with no
fetch and no post. -/
def program (webhook : Option String) (cfg : Cfg) (o1 o3 : FetchOutcome)
    (deliveryOk : Bool) : RunResult :=
  if webhookMissing webhook then ⟨0, 0, none, 1⟩
  else main cfg o1 o3 deliveryOk

end FetchScript

namespace PwShared

/-!
First Playwright script in `src/unnamed/part_000`: one browser and one
shared context, `waitForApexSeries` poll loop (750 ms interval, default
120000 ms deadline), `scrapeTimeframe` per target with a `finally` that
closes the page, and a `main` whose `catch` calls `process.exit(1)` before
its `finally` (which would close the context and the browser) can run.
-/

/-- One entry of `window.Apex._chartInstances` as the probe reads it:
`x?.id` and `x?.chart?.w?.config?.series` (the latter `none` when missing
or not an array). -/
structure ApexInstance where
  instId : Option String
  series : Option (List RawSeries)

/-- The page state a probe evaluation observes: `none` when `window.Apex`
or `_chartInstances` is missing (the probe's first guard also treats an
empty instance list as not ready). -/
def PageState := Option (List ApexInstance)

/-- The probe's final checks on the instance's series value:
`if (!Array.isArray(s) || s.length === 0) return null;` then
`hasPoints = s.some(z => Array.isArray(z?.data) && z.data.length > 0);
return hasPoints ? s : null;`.  (A missing or non-array series value is
the `none` case of `ApexInstance.series`, handled by the caller.) -/
def validated (s : List RawSeries) : Option (List RawSeries) :=
  match s with
  | [] => none
  | s0 :: srest =>
    if (s0 :: srest).any (fun z => !(z.data.getD []).isEmpty) then some (s0 :: srest)
    else none

/-- The body of the `page.evaluate` inside `waitForApexSeries`: guard on
`Apex._chartInstances`, select the `projection-chart` instance or fall
back to the first, read `inst?.chart?.w?.config?.series`, and return it
only if it passes `validated`. -/
def probeOnce (st : PageState) : Option (List RawSeries) :=
  match st with
  | none => none
  | some [] => none
  | some (i0 :: rest) =>
    match ((List.find? (fun x => x.instId == some "projection-chart") (i0 :: rest)).getD i0).series with
    | none => none
    | some s => validated s

/-- The poll loop of `waitForApexSeries`, indexed by the probe iteration
(iteration `i` happens at elapsed time `750 * i`; the loop body runs while
the elapsed time is below the deadline) with explicit remaining-iteration
fuel.  Returns the iteration index together with the observed series, or
an error when the fuel (the deadline) is exhausted. -/
def pollGo (states : ℕ → PageState) : ℕ → ℕ → Except Unit (ℕ × List RawSeries)
  | _, 0 => .error ()
  | i, fuel + 1 =>
    match probeOnce (states i) with
    | some s => .ok (i, s)
    | none => pollGo states (i + 1) fuel

/-- Number of loop iterations before the deadline: the count of `i` with
`750 * i < timeoutMs`, i.e. the ceiling of `timeoutMs / 750`. -/
def nIters (timeoutMs : ℕ) : ℕ := (timeoutMs + 749) / 750

/-- `waitForApexSeries(page, timeoutMs)` as a function of the sequence of
page states its successive probe evaluations observe.  (An evaluation
error is caught and treated like a not-ready probe, i.e. a `none`
state.) -/
def waitForApexSeries (states : ℕ → PageState) (timeoutMs : ℕ) :
    Except Unit (ℕ × List RawSeries) :=
  pollGo states 0 (nIters timeoutMs)

/-- `toISODate`: UTC `YYYY-MM-DD` from epoch milliseconds. -/
def toISODate (ms : ℚ) : String := isoDateOfMs ms

/-- One point of the `scrapeTimeframe` row loop: kept only when both
coordinates are of number type (`typeof x !== "number"` skips everything
else); the price is `Number(y.toFixed(2))`, i.e. `round2` on exact
values. -/
def pointRow (cfg : Cfg) (lbl scen : String) : PointV → Option Row
  | .pt (.num qx) (.num qy) =>
    some { ticker := cfg.ticker, forecastDate := cfg.forecastDate,
           targetDate := toISODate qx, scenario := scen,
           predictedPrice := round2 qy, timeframe := lbl }
  | _ => none

/-- Rows built from one raw series by `scrapeTimeframe` (no trimming, no
Price filter: `scenario = s?.name || "Unknown"`). -/
def seriesRows (cfg : Cfg) (lbl : String) (s : RawSeries) : List Row :=
  (s.data.getD []).filterMap (pointRow cfg lbl (scenarioOf s.name))

/-- The full row list of `scrapeTimeframe`'s loop over the polled
series. -/
def seriesListRows (cfg : Cfg) (lbl : String) (series : List RawSeries) : List Row :=
  series.flatMap (seriesRows cfg lbl)

/-- Failure modes of one target's scrape. -/
inductive ScrapeErr where
  | nav
  | timeout
  | notFound
  | emptyResult
deriving DecidableEq, Repr

/-- How one `scrapeTimeframe` call can go before the row loop:
`page.goto` fails, `waitForSelector` times out, or the poll loop runs on
the page's state sequence. -/
inductive TFOutcome where
  | gotoFail
  | selectorTimeout
  | apex (states : ℕ → PageState)

/-- `scrapeTimeframe(context, {label, url})`: navigation and selector
failures propagate; otherwise the poll loop either times out or yields
series, which the row loop normalizes; a zero-row result throws
(`No prediction points found`), a distinct found-but-unusable failure. -/
def scrapeTimeframe (cfg : Cfg) (lbl : String) : TFOutcome → Except ScrapeErr (List Row)
  | .gotoFail => .error .nav
  | .selectorTimeout => .error .timeout
  | .apex states =>
    match waitForApexSeries states 120000 with
    | .error _ => .error .timeout
    | .ok ps =>
      let rows := seriesListRows cfg lbl ps.2
      if rows = [] then .error .emptyResult else .ok rows

/-- `main`: targets `3m` then `1m` scraped sequentially in one loop; the
first failure is caught and `process.exit(1)` runs, so later targets are
never attempted and nothing is posted; when both succeed the concatenated
rows are posted and the exit code reflects the post. -/
def main (cfg : Cfg) (o3 o1 : TFOutcome) (deliveryOk : Bool) : RunResult :=
  match scrapeTimeframe cfg "3m" o3 with
  | .error _ => ⟨1, 0, none, 1⟩
  | .ok r3 =>
    match scrapeTimeframe cfg "1m" o1 with
    | .error _ => ⟨1, 1, none, 1⟩
    | .ok r1 =>
      if deliveryOk then ⟨1, 1, some (r3 ++ r1), 0⟩
      else ⟨1, 1, some (r3 ++ r1), 1⟩

/-- The whole process with the module-top `MAKE_WEBHOOK_URL` guard. -/
def program (webhook : Option String) (cfg : Cfg) (o3 o1 : TFOutcome)
    (deliveryOk : Bool) : RunResult :=
  if webhookMissing webhook then ⟨0, 0, none, 1⟩
  else main cfg o3 o1 deliveryOk

/-- Browser resources acquired during a run of this script. -/
inductive Res where
  | browser
  | context
  | page (lbl : String)
deriving DecidableEq, Repr

/-- Observable resource events of a run, plus explicit process
termination. -/
inductive Ev where
  | acquire (r : Res)
  | release (r : Res)
  | procExit (code : ℕ)
deriving DecidableEq, Repr

/-- Resource events of one `scrapeTimeframe` call: `context.newPage()`,
then a `try`/`finally` whose `finally` awaits `page.close()`, so the page
is released whether the body returns rows or throws. -/
def scrapeEvents (lbl : String) : List Ev :=
  [.acquire (.page lbl), .release (.page lbl)]

/-- Resource events and final exit code of `main`, as a function of which
steps succeed.  `chromium.launch` and `browser.newContext` run before the
`try`; a failure there is an unhandled rejection (exit 1) that skips the
`finally`.  Inside the `try`, the first failing target (or a failing
post) reaches the `catch`, whose `process.exit(1)` terminates the process
before the `finally` can close the context and the browser; only the full
success path reaches the `finally`'s `context.close()` and
`browser.close()`. -/
def mainEvents (launchOk ctxOk ok3 ok1 deliveryOk : Bool) : List Ev × ℕ :=
  if !launchOk then ([], 1)
  else if !ctxOk then ([.acquire .browser], 1)
  else
    let pre := [Ev.acquire .browser, Ev.acquire .context]
    if !ok3 then (pre ++ scrapeEvents "3m" ++ [.procExit 1], 1)
    else if !ok1 then (pre ++ scrapeEvents "3m" ++ scrapeEvents "1m" ++ [.procExit 1], 1)
    else if !deliveryOk then
      (pre ++ scrapeEvents "3m" ++ scrapeEvents "1m" ++ [.procExit 1], 1)
    else
      (pre ++ scrapeEvents "3m" ++ scrapeEvents "1m" ++
        [.release .context, .release .browser], 0)

/-- A resource was acquired during the run. -/
def acquired (tr : List Ev) (r : Res) : Bool := tr.contains (.acquire r)

/-- A resource was released during the run. -/
def released (tr : List Ev) (r : Res) : Bool := tr.contains (.release r)

end PwShared

namespace PwPerTarget

/-!
Second Playwright script in `src/unnamed/part_000`: one browser per
target (`scrapeOne`, whose `finally` awaits `browser.close()`),
`scrapeApexSeriesFromPage` with `waitForFunction` + a single `evaluate`,
and the row loop

```
const scenario = (s?.name || "").trim();
if (!scenario) continue;
if (scenario.toLowerCase() === "price") continue;
for (const pt of s.data) {
  const x = pt?.x; const y = pt?.y;
  if (x == null || y == null) continue;
  rows.push({ ..., Target_Date: toISODateFromMs(x), Scenario: scenario,
              Predicted_Price: round2(y), Timeframe: timeframeLabel });
}
```
-/

/-- `toISODateFromMs`: UTC `YYYY-MM-DD` from epoch milliseconds.  The
script's `round2` is the top-level `round2` of this file. -/
def toISODateFromMs (ms : ℚ) : String := isoDateOfMs ms

/-- One point of the `scrapeApexSeriesFromPage` row loop: only nullish
coordinates are skipped (`x == null || y == null`); any other value —
including a boolean — produces a row via `Number` coercion. -/
def pointRow (cfg : Cfg) (tf scen : String) : PointV → Option Row
  | .nonObj => none
  | .pt x y =>
    if x.isNullish || y.isNullish then none
    else some { ticker := upperStr cfg.ticker, forecastDate := cfg.forecastDate,
                targetDate := toISODateFromMs x.toNumD, scenario := scen,
                predictedPrice := round2 y.toNumD, timeframe := tf }

/-- Rows built from one raw series: the trimmed name must be non-empty
and must not be the reserved historical label "price" (compared after
`toLowerCase()`); the page-side `evaluate` already defaulted a non-array
`data` to `[]`. -/
def seriesRows (cfg : Cfg) (tf : String) (s : RawSeries) : List Row :=
  let scenario := trimStr (s.name.getD "")
  if scenario = "" then []
  else if lowerStr scenario = "price" then []
  else (s.data.getD []).filterMap (pointRow cfg tf scenario)

/-- The full row list of `scrapeApexSeriesFromPage`'s loop. -/
def seriesListRows (cfg : Cfg) (tf : String) (series : List RawSeries) : List Row :=
  series.flatMap (seriesRows cfg tf)

/-- How one `scrapeOne` call can go before the row loop: navigation
fails, `waitForFunction` times out, or the `evaluate` returns its raw
series value (`none` models the `return null` branch). -/
inductive FetchOutcome where
  | navError
  | waitFnTimeout
  | rawResult (raw : Option (List RawSeries))

/-- `scrapeOne(url, tf)` / `scrapeApexSeriesFromPage(page, tf)`:
a `null` evaluate result throws the could-not-locate error (NotFound); a
located series whose normalization retains zero rows throws the distinct
found-but-unusable error (EmptyResult). -/
def scrapeOne (cfg : Cfg) (tf : String) : FetchOutcome → Except PwShared.ScrapeErr (List Row)
  | .navError => .error .nav
  | .waitFnTimeout => .error .timeout
  | .rawResult none => .error .notFound
  | .rawResult (some raw) =>
    let rows := seriesListRows cfg tf raw
    if rows = [] then .error .emptyResult else .ok rows

/-- `main`: `scrapeOne` for 3m, then for 1m, then one post of the
concatenated rows; `main().catch(...)` exits 1 on the first rejection, so
a failing 3m leaves 1m unattempted and nothing posted. -/
def main (cfg : Cfg) (o3 o1 : FetchOutcome) (deliveryOk : Bool) : RunResult :=
  match scrapeOne cfg "3m" o3 with
  | .error _ => ⟨1, 0, none, 1⟩
  | .ok r3 =>
    match scrapeOne cfg "1m" o1 with
    | .error _ => ⟨1, 1, none, 1⟩
    | .ok r1 =>
      if deliveryOk then ⟨1, 1, some (r3 ++ r1), 0⟩
      else ⟨1, 1, some (r3 ++ r1), 1⟩

/-- The whole process with the module-top `MAKE_WEBHOOK_URL` guard. -/
def program (webhook : Option String) (cfg : Cfg) (o3 o1 : FetchOutcome)
    (deliveryOk : Bool) : RunResult :=
  if webhookMissing webhook then ⟨0, 0, none, 1⟩
  else main cfg o3 o1 deliveryOk

end PwPerTarget

/-! Concrete fixtures used to instantiate the theorems below. -/

/-- A sample configuration (default symbol, a fixed forecast date). -/
def cfg0 : Cfg := ⟨"tsla", "2025-01-15"⟩

/-- A forecast scenario series with one valid numeric point
(x = 1700000000000 ms, y = 123.456). -/
def bullSeries : RawSeries :=
  ⟨some "Bull Scenario", some [.pt (.num 1700000000000) (.num (mkRat 123456 1000))]⟩

/-- The reserved historical-price series, with one valid point. -/
def priceSeries : RawSeries :=
  ⟨some "Price", some [.pt (.num 1700000000000) (.num 100)]⟩

/-- A scenario series whose data array is empty. -/
def emptyBull : RawSeries := ⟨some "Bull Scenario", some []⟩

/-- A scenario series whose single point has boolean (non-numeric,
non-nullish) coordinates. -/
def boolSeries : RawSeries := ⟨some "Bull Scenario", some [.pt (.bool true) (.bool true)]⟩

/-- The row `PwPerTarget` builds from `bullSeries` under `cfg0`. -/
def bullRowD (tf : String) : Row :=
  { ticker := "TSLA", forecastDate := "2025-01-15", targetDate := "2023-11-14",
    scenario := "Bull Scenario", predictedPrice := round2 (mkRat 123456 1000),
    timeframe := tf }

/-- The row `PwShared` builds from `bullSeries` under `cfg0`. -/
def bullRowC (lbl : String) : Row :=
  { ticker := "tsla", forecastDate := "2025-01-15", targetDate := "2023-11-14",
    scenario := "Bull Scenario", predictedPrice := round2 (mkRat 123456 1000),
    timeframe := lbl }

/-- The row `PwPerTarget` builds from `boolSeries` under `cfg0`:
`Number(true) = 1`, `new Date(1)` is 1970-01-01 UTC. -/
def boolRow : Row :=
  { ticker := "TSLA", forecastDate := "2025-01-15", targetDate := "1970-01-01",
    scenario := "Bull Scenario", predictedPrice := round2 1, timeframe := "3m" }

/-- A `scrapeOne` outcome whose evaluate immediately yields `bullSeries`. -/
def goodOutcomeD : PwPerTarget.FetchOutcome := .rawResult (some [bullSeries])

/-- A page whose chart is hydrated from the first probe on. -/
def statesReady : ℕ → PwShared.PageState :=
  fun _ => some [⟨some "projection-chart", some [bullSeries]⟩]

/-- A page on which `window.Apex` never appears. -/
def statesNone : ℕ → PwShared.PageState := fun _ => none

/-- A `scrapeTimeframe` outcome that reaches the poll loop on a ready
page. -/
def goodTF : PwShared.TFOutcome := .apex statesReady

/-! ## Helper lemmas -/

/-- A series list accepted by the probe's validation is non-empty and
contains a series with at least one data point. -/
theorem validated_some {s t : List RawSeries} (h : PwShared.validated s = some t) :
    t ≠ [] ∧ ∃ z ∈ t, z.data.getD [] ≠ [] := by
  cases s with
  | nil => exact Option.noConfusion h
  | cons s0 srest =>
    simp only [PwShared.validated] at h
    split at h
    · rename_i hany
      obtain rfl : s0 :: srest = t := Option.some.inj h
      refine ⟨List.cons_ne_nil s0 srest, ?_⟩
      obtain ⟨z, hz, hzp⟩ := List.any_eq_true.mp hany
      refine ⟨z, hz, ?_⟩
      intro hc
      rw [hc] at hzp
      simp at hzp
    · exact Option.noConfusion h

/-- A successful probe evaluation returns a validated series list. -/
theorem probeOnce_some_valid {st : PwShared.PageState} {t : List RawSeries}
    (h : PwShared.probeOnce st = some t) :
    t ≠ [] ∧ ∃ z ∈ t, z.data.getD [] ≠ [] := by
  cases st with
  | none => exact Option.noConfusion h
  | some l =>
    cases l with
    | nil => exact Option.noConfusion h
    | cons i0 rest =>
      simp only [PwShared.probeOnce] at h
      cases hser : ((List.find? (fun x => x.instId == some "projection-chart") (i0 :: rest)).getD i0).series with
      | none => rw [hser] at h; exact Option.noConfusion h
      | some s => rw [hser] at h; exact validated_some h

/-- Unrolling the poll loop from index `i` with given fuel: a success at
index `j` means the probe succeeded there, `j` lies in the window, and
every earlier probe in the window returned nothing. -/
theorem pollGo_ok_spec (states : ℕ → PwShared.PageState) :
    ∀ (fuel i j : ℕ) (s : List RawSeries),
      PwShared.pollGo states i fuel = .ok (j, s) →
      PwShared.probeOnce (states j) = some s ∧ i ≤ j ∧ j < i + fuel ∧
        ∀ k, i ≤ k → k < j → PwShared.probeOnce (states k) = none := by
  intro fuel
  induction fuel with
  | zero => intro i j s h; exact Except.noConfusion h
  | succ n ih =>
    intro i j s h
    simp only [PwShared.pollGo] at h
    cases hp : PwShared.probeOnce (states i) with
    | some s0 =>
      rw [hp] at h
      obtain ⟨rfl, rfl⟩ : i = j ∧ s0 = s := by
        have h2 := Except.ok.inj h
        exact ⟨congrArg Prod.fst h2, congrArg Prod.snd h2⟩
      refine ⟨hp, Nat.le_refl _, by omega, ?_⟩
      intro k hk1 hk2
      omega
    | none =>
      rw [hp] at h
      obtain ⟨h1, h2, h3, h4⟩ := ih (i + 1) j s h
      refine ⟨h1, by omega, by omega, ?_⟩
      intro k hk1 hk2
      rcases Nat.lt_or_ge k (i + 1) with hk | hk
      · have : k = i := by omega
        rw [this]
        exact hp
      · exact h4 k hk hk2

/-- Unrolling the poll loop from index `i` with given fuel: exhaustion
means every probe in the window returned nothing. -/
theorem pollGo_err_spec (states : ℕ → PwShared.PageState) :
    ∀ (fuel i : ℕ),
      PwShared.pollGo states i fuel = .error () →
      ∀ k, i ≤ k → k < i + fuel → PwShared.probeOnce (states k) = none := by
  intro fuel
  induction fuel with
  | zero => intro i _ k _ hk2; omega
  | succ n ih =>
    intro i h k hk1 hk2
    simp only [PwShared.pollGo] at h
    cases hp : PwShared.probeOnce (states i) with
    | some s0 => rw [hp] at h; exact Except.noConfusion h
    | none =>
      rw [hp] at h
      rcases Nat.lt_or_ge k (i + 1) with hk | hk
      · have : k = i := by omega
        rw [this]
        exact hp
      · exact ih (i + 1) h k hk (by omega)

/-- A successful `scrapeOne` never returns an empty row list (the empty
case throws instead). -/
theorem scrapeOne_ok_ne_nil {cfg : Cfg} {tf : String} {o : PwPerTarget.FetchOutcome}
    {r : List Row} (h : PwPerTarget.scrapeOne cfg tf o = .ok r) : r ≠ [] := by
  cases o with
  | navError => exact Except.noConfusion h
  | waitFnTimeout => exact Except.noConfusion h
  | rawResult raw =>
    cases raw with
    | none => exact Except.noConfusion h
    | some l =>
      simp only [PwPerTarget.scrapeOne] at h
      split at h
      · exact Except.noConfusion h
      · rename_i hne
        obtain rfl : PwPerTarget.seriesListRows cfg tf l = r := Except.ok.inj h
        exact hne

/-- A successful `scrapeTimeframe` never returns an empty row list. -/
theorem scrapeTimeframe_ok_ne_nil {cfg : Cfg} {lbl : String} {o : PwShared.TFOutcome}
    {r : List Row} (h : PwShared.scrapeTimeframe cfg lbl o = .ok r) : r ≠ [] := by
  cases o with
  | gotoFail => exact Except.noConfusion h
  | selectorTimeout => exact Except.noConfusion h
  | apex states =>
    simp only [PwShared.scrapeTimeframe] at h
    cases hw : PwShared.waitForApexSeries states 120000 with
    | error e => simp only [hw] at h; exact Except.noConfusion h
    | ok ps =>
      simp only [hw] at h
      split at h
      · exact Except.noConfusion h
      · rename_i hne
        obtain rfl : PwShared.seriesListRows cfg lbl ps.2 = r := Except.ok.inj h
        exact hne

/-- Structure of any row produced by the `PwPerTarget` normalizer from one
series: its scenario is the trimmed, non-empty, non-"price" name, and it
comes from a non-nullish point whose y-value it rounds. -/
theorem mem_seriesRows_perTarget {cfg : Cfg} {tf : String} {s : RawSeries} {r : Row}
    (h : r ∈ PwPerTarget.seriesRows cfg tf s) :
    trimStr (s.name.getD "") ≠ "" ∧ lowerStr (trimStr (s.name.getD "")) ≠ "price" ∧
      r.scenario = trimStr (s.name.getD "") ∧
      ∃ x y : JVal, PointV.pt x y ∈ s.data.getD [] ∧
        r.targetDate = PwPerTarget.toISODateFromMs x.toNumD ∧
        r.predictedPrice = round2 y.toNumD := by
  simp only [PwPerTarget.seriesRows] at h
  split at h
  · exact absurd h (List.not_mem_nil r)
  · split at h
    · exact absurd h (List.not_mem_nil r)
    · rename_i h1 h2
      rw [List.mem_filterMap] at h
      obtain ⟨p, hp, hpr⟩ := h
      cases p with
      | nonObj => exact Option.noConfusion hpr
      | pt x y =>
        simp only [PwPerTarget.pointRow] at hpr
        split at hpr
        · exact Option.noConfusion hpr
        · obtain rfl := (Option.some.inj hpr).symm
          exact ⟨h1, h2, rfl, x, y, hp, rfl, rfl⟩

/-- Structure of any row produced by the `PwShared` normalizer from one
series: it comes from a point both of whose coordinates are of number
type, whose x it converts to a date and whose y it rounds. -/
theorem mem_seriesRows_shared {cfg : Cfg} {lbl : String} {s : RawSeries} {r : Row}
    (h : r ∈ PwShared.seriesRows cfg lbl s) :
    ∃ qx qy : ℚ, PointV.pt (.num qx) (.num qy) ∈ s.data.getD [] ∧
      r.targetDate = PwShared.toISODate qx ∧ r.predictedPrice = round2 qy := by
  simp only [PwShared.seriesRows] at h
  rw [List.mem_filterMap] at h
  obtain ⟨p, hp, hpr⟩ := h
  cases p with
  | nonObj => exact Option.noConfusion hpr
  | pt x y =>
    cases x with
    | num qx =>
      cases y with
      | num qy =>
        obtain rfl := (Option.some.inj hpr).symm
        exact ⟨qx, qy, hp, rfl, rfl⟩
      | null => exact Option.noConfusion hpr
      | undef => exact Option.noConfusion hpr
      | bool b => exact Option.noConfusion hpr
    | null => exact Option.noConfusion hpr
    | undef => exact Option.noConfusion hpr
    | bool b => exact Option.noConfusion hpr

/-! ## Claim theorems -/

/-- C7: the epoch-milliseconds-to-UTC-calendar-date conversion used for
x-values (each script's own function) maps 1700000000000 to exactly
"2023-11-14". -/
theorem claim_C7 :
    FetchScript.toYMD 1700000000000 = "2023-11-14" ∧
    PwShared.toISODate 1700000000000 = "2023-11-14" ∧
    PwPerTarget.toISODateFromMs 1700000000000 = "2023-11-14" := by
  refine ⟨by decide, by decide, by decide⟩

/-- C10: when the MAKE_WEBHOOK_URL environment variable is absent, each
script's module-top guard exits with code 1 before any page navigation,
extraction attempt, or delivery attempt (zero pipeline attempts, nothing
delivered). -/
theorem claim_C10 (w : Option String) (cfg : Cfg)
    (oA1 oA3 : FetchScript.FetchOutcome) (dA : Bool)
    (oC3 oC1 : PwShared.TFOutcome) (dC : Bool)
    (oD3 oD1 : PwPerTarget.FetchOutcome) (dD : Bool)
    (h : w = none) :
    FetchScript.program w cfg oA1 oA3 dA = ⟨0, 0, none, 1⟩ ∧
    PwShared.program w cfg oC3 oC1 dC = ⟨0, 0, none, 1⟩ ∧
    PwPerTarget.program w cfg oD3 oD1 dD = ⟨0, 0, none, 1⟩ := by
  subst h
  exact ⟨rfl, rfl, rfl⟩

/-- C10 witness: instantiation at an absent webhook variable. -/
theorem claim_C10_witness :
    FetchScript.program none cfg0 .httpError .httpError true = ⟨0, 0, none, 1⟩ ∧
    PwShared.program none cfg0 .gotoFail .gotoFail true = ⟨0, 0, none, 1⟩ ∧
    PwPerTarget.program none cfg0 .navError .navError true = ⟨0, 0, none, 1⟩ :=
  claim_C10 none cfg0 .httpError .httpError true .gotoFail .gotoFail true
    .navError .navError true rfl

/-- C9: the claim says every browser resource acquired in a scope is
released on every exit path.  The code contradicts this intent: in the
shared-context script, a failing target reaches `main`'s `catch`, whose
`process.exit(1)` terminates before the `finally` that would close the
context and the browser, so only the per-target page is released (first
three conjuncts evaluate the failing run); the full-success path does
release both (last two conjuncts). -/
theorem claim_C9_code_bug :
    (PwShared.mainEvents true true false true true).1 =
      [.acquire .browser, .acquire .context, .acquire (.page "3m"),
       .release (.page "3m"), .procExit 1] ∧
    PwShared.acquired (PwShared.mainEvents true true false true true).1 .browser = true ∧
    PwShared.released (PwShared.mainEvents true true false true true).1 .browser = false ∧
    PwShared.released (PwShared.mainEvents true true false true true).1 .context = false ∧
    PwShared.released (PwShared.mainEvents true true false true true).1 (.page "3m") = true ∧
    PwShared.released (PwShared.mainEvents true true true true true).1 .browser = true ∧
    PwShared.released (PwShared.mainEvents true true true true true).1 .context = true := by
  decide

/-- C2 counterexample: the claim says a target's first extraction failure
triggers exactly one reload-and-retry, and that a (second) failure never
aborts the other targets of the run.  In the code, the 3m target's very
first failure ends the run: its pipeline ran exactly once (no retry), the
1m target was never attempted, and the process exits 1 without
delivering. -/
theorem claim_C2_counterexample :
    PwShared.main cfg0 .gotoFail goodTF true = ⟨1, 0, none, 1⟩ := rfl

/-- C2 amended: no retry exists — each target's poll/locate/normalize
pipeline is executed at most once per run, and any failure of the
first-scraped target is terminal for the whole run: the other target is
not attempted, nothing is delivered, and the process exits 1. -/
theorem claim_C2_amended (cfg : Cfg) (o3 o1 : PwShared.TFOutcome) (d : Bool)
    (h : (PwShared.scrapeTimeframe cfg "3m" o3).isOk = false) :
    (PwShared.main cfg o3 o1 d).attemptsFirst = 1 ∧
    (PwShared.main cfg o3 o1 d).attemptsSecond = 0 ∧
    (PwShared.main cfg o3 o1 d).delivered = none ∧
    (PwShared.main cfg o3 o1 d).exitCode = 1 := by
  cases hh : PwShared.scrapeTimeframe cfg "3m" o3 with
  | error e => simp [PwShared.main, hh]
  | ok r => rw [hh] at h; exact absurd h (by simp [Except.isOk, Except.toBool])

/-- C2 amended, witness: a 3m navigation failure under `cfg0`. -/
theorem claim_C2_amended_witness :
    (PwShared.main cfg0 .gotoFail goodTF true).attemptsFirst = 1 ∧
    (PwShared.main cfg0 .gotoFail goodTF true).attemptsSecond = 0 ∧
    (PwShared.main cfg0 .gotoFail goodTF true).delivered = none ∧
    (PwShared.main cfg0 .gotoFail goodTF true).exitCode = 1 :=
  claim_C2_amended cfg0 .gotoFail goodTF true rfl

/-- C6 counterexample: the claim says a target whose raw series were
located but whose normalization kept zero rows signals EmptyResult.  The
fetch-only script has no such check: on a located-and-parsed series with
an empty point list, `fetchForecast` silently returns the empty row list
with no error. -/
theorem claim_C6_counterexample :
    FetchScript.fetchForecast cfg0 "3m" (.parsed [emptyBull]) = .ok [] := rfl

/-- C6 amended: in the Playwright scripts the property holds; for the
per-target script, whenever the evaluate returned raw series but the
normalizer retained zero rows, `scrapeOne` fails with EmptyResult, a
failure distinct from NotFound. -/
theorem claim_C6_amended (cfg : Cfg) (tf : String) (raw : List RawSeries)
    (h : PwPerTarget.seriesListRows cfg tf raw = []) :
    PwPerTarget.scrapeOne cfg tf (.rawResult (some raw)) = .error .emptyResult ∧
    PwShared.ScrapeErr.emptyResult ≠ PwShared.ScrapeErr.notFound := by
  refine ⟨?_, by decide⟩
  simp only [PwPerTarget.scrapeOne, h]
  rfl

/-- C6 amended, witness: a located series list consisting only of the
reserved "Price" series normalizes to zero rows and yields EmptyResult. -/
theorem claim_C6_amended_witness :
    PwPerTarget.scrapeOne cfg0 "3m" (.rawResult (some [priceSeries])) =
      .error .emptyResult ∧
    PwShared.ScrapeErr.emptyResult ≠ PwShared.ScrapeErr.notFound :=
  claim_C6_amended cfg0 "3m" [priceSeries] rfl

/-- The `PwPerTarget` normalizer maps the bull fixture to exactly the
fixture row (membership fact reused by several witnesses). -/
theorem bullRowD_mem (tf : String) :
    bullRowD tf ∈ PwPerTarget.seriesListRows cfg0 tf [bullSeries] :=
  List.Mem.head _

/-- The `PwShared` normalizer maps the bull fixture to exactly the fixture
row. -/
theorem bullRowC_mem (lbl : String) :
    bullRowC lbl ∈ PwShared.seriesListRows cfg0 lbl [bullSeries] :=
  List.Mem.head _

/-- C1 counterexample: the claim says a zero-row run fails without ever
invoking delivery and that exit code 0 requires at least one row.  The
fetch-only script posts unconditionally: when both fetches parse series
whose point lists are empty, the webhook is invoked with an empty batch
and the process exits 0. -/
theorem claim_C1_counterexample :
    (FetchScript.main cfg0 (.parsed [emptyBull]) (.parsed [emptyBull]) true).delivered
        = some [] ∧
    (FetchScript.main cfg0 (.parsed [emptyBull]) (.parsed [emptyBull]) true).exitCode
        = 0 :=
  ⟨rfl, rfl⟩

/-- C1 amended: in the per-target Playwright script the claim holds: the
run exits 0 only if delivery succeeded and a non-empty batch was
delivered, and any batch handed to delivery is non-empty (so a zero-row
run never invokes the webhook). -/
theorem claim_C1_amended (cfg : Cfg) (o3 o1 : PwPerTarget.FetchOutcome) (d : Bool) :
    ((PwPerTarget.main cfg o3 o1 d).exitCode = 0 →
      d = true ∧ ∃ b, (PwPerTarget.main cfg o3 o1 d).delivered = some b ∧ b ≠ []) ∧
    (∀ b, (PwPerTarget.main cfg o3 o1 d).delivered = some b → b ≠ []) := by
  cases h3 : PwPerTarget.scrapeOne cfg "3m" o3 with
  | error e =>
    simp only [PwPerTarget.main, h3]
    exact ⟨fun hx => absurd hx (by decide), fun b hb => Option.noConfusion hb⟩
  | ok r3 =>
    have hne3 := scrapeOne_ok_ne_nil h3
    cases h1 : PwPerTarget.scrapeOne cfg "1m" o1 with
    | error e =>
      simp only [PwPerTarget.main, h3, h1]
      exact ⟨fun hx => absurd hx (by decide), fun b hb => Option.noConfusion hb⟩
    | ok r1 =>
      cases d with
      | true =>
        simp only [PwPerTarget.main, h3, h1, if_true]
        refine ⟨fun _ => ⟨trivial, r3 ++ r1, rfl, ?_⟩, fun b hb => ?_⟩
        · intro hc
          rw [List.append_eq_nil] at hc
          exact hne3 hc.1
        · obtain rfl : r3 ++ r1 = b := Option.some.inj hb
          intro hc
          rw [List.append_eq_nil] at hc
          exact hne3 hc.1
      | false =>
        simp only [PwPerTarget.main, h3, h1]
        refine ⟨fun hx => absurd hx Nat.one_ne_zero, fun b hb => ?_⟩
        obtain rfl : r3 ++ r1 = b := Option.some.inj hb
        intro hc
        rw [List.append_eq_nil] at hc
        exact hne3 hc.1

/-- C1 amended, witness: a fully successful run under `cfg0`. -/
theorem claim_C1_amended_witness :
    (true = true ∧
      ∃ b, (PwPerTarget.main cfg0 goodOutcomeD goodOutcomeD true).delivered = some b ∧
        b ≠ []) ∧
    [bullRowD "3m", bullRowD "1m"] ≠ ([] : List Row) :=
  ⟨(claim_C1_amended cfg0 goodOutcomeD goodOutcomeD true).1 rfl,
   (claim_C1_amended cfg0 goodOutcomeD goodOutcomeD true).2
     [bullRowD "3m", bullRowD "1m"] rfl⟩

/-- C3 counterexample: the claim says the normalizer never emits a row
whose source series name matches the reserved historical-price label
case-insensitively.  The fetch-only normalizer has no such filter: a
series named "Price" produces a row with that scenario. -/
theorem claim_C3_counterexample :
    (FetchScript.fetchRows cfg0 "3m" [priceSeries]).map Row.scenario = ["Price"] ∧
    lowerStr "Price" = "price" :=
  ⟨rfl, rfl⟩

/-- C3 amended: the per-target Playwright normalizer satisfies the claim:
every emitted row has a non-empty (already trimmed) scenario that does not
match the reserved "price" label case-insensitively. -/
theorem claim_C3_amended (cfg : Cfg) (tf : String) (series : List RawSeries) (r : Row)
    (h : r ∈ PwPerTarget.seriesListRows cfg tf series) :
    r.scenario ≠ "" ∧ lowerStr r.scenario ≠ "price" := by
  simp only [PwPerTarget.seriesListRows, List.mem_flatMap] at h
  obtain ⟨s, _, hr⟩ := h
  obtain ⟨h1, h2, h3, _⟩ := mem_seriesRows_perTarget hr
  rw [h3]
  exact ⟨h1, h2⟩

/-- C3 amended, witness: the bull fixture row. -/
theorem claim_C3_amended_witness :
    (bullRowD "3m").scenario ≠ "" ∧ lowerStr (bullRowD "3m").scenario ≠ "price" :=
  claim_C3_amended cfg0 "3m" [bullSeries] (bullRowD "3m") (bullRowD_mem "3m")

/-- C4 counterexample: the claim says every emitted row's predictedPrice
equals its source y-value rounded to 2 decimals.  The fetch-only script
emits the raw y (`Number(p.y)`) with no rounding: for y = 123.456 the
emitted price is 123.456, which differs from its 2-decimal rounding. -/
theorem claim_C4_counterexample :
    (FetchScript.fetchRows cfg0 "1m" [bullSeries]).map Row.predictedPrice
        = [mkRat 123456 1000] ∧
    round2 (mkRat 123456 1000) ≠ mkRat 123456 1000 := by
  refine ⟨rfl, ?_⟩
  simp only [Rat.mkRat_eq_div]
  norm_num [round2]

/-- C4 amended: in the per-target Playwright script every emitted row's
predictedPrice is `round2` of its source point's y-value (half-up on the
scaled value), and `round2` maps 123.456 to exactly 123.46. -/
theorem claim_C4_amended :
    (∀ (cfg : Cfg) (tf : String) (series : List RawSeries) (r : Row),
        r ∈ PwPerTarget.seriesListRows cfg tf series →
        ∃ s ∈ series, ∃ x y : JVal, PointV.pt x y ∈ s.data.getD [] ∧
          r.predictedPrice = round2 y.toNumD) ∧
    round2 (mkRat 123456 1000) = mkRat 12346 100 := by
  constructor
  · intro cfg tf series r h
    simp only [PwPerTarget.seriesListRows, List.mem_flatMap] at h
    obtain ⟨s, hs, hr⟩ := h
    obtain ⟨_, _, _, x, y, hp, _, hpr⟩ := mem_seriesRows_perTarget hr
    exact ⟨s, hs, x, y, hp, hpr⟩
  · simp only [Rat.mkRat_eq_div]
    norm_num [round2]

/-- C4 amended, witness: the bull fixture row under `cfg0`. -/
theorem claim_C4_amended_witness :
    ∃ s ∈ [bullSeries], ∃ x y : JVal, PointV.pt x y ∈ s.data.getD [] ∧
      (bullRowD "3m").predictedPrice = round2 y.toNumD :=
  claim_C4_amended.1 cfg0 "3m" [bullSeries] (bullRowD "3m") (bullRowD_mem "3m")

/-- C5 counterexample: the claim says a point with a non-numeric
coordinate never yields a row.  The per-target Playwright normalizer only
skips nullish coordinates: a point with boolean coordinates produces a
row (via `Number(true) = 1`). -/
theorem claim_C5_counterexample :
    PwPerTarget.seriesListRows cfg0 "3m" [boolSeries] = [boolRow] ∧
    [boolRow] ≠ ([] : List Row) :=
  ⟨rfl, List.cons_ne_nil _ _⟩

/-- C5 amended: the shared-context Playwright normalizer satisfies the
claim: every emitted row comes from a point both of whose coordinates are
numbers (all other points are skipped without error, the function being
total). -/
theorem claim_C5_amended (cfg : Cfg) (lbl : String) (series : List RawSeries) (r : Row)
    (h : r ∈ PwShared.seriesListRows cfg lbl series) :
    ∃ s ∈ series, ∃ qx qy : ℚ, PointV.pt (.num qx) (.num qy) ∈ s.data.getD [] ∧
      r.targetDate = PwShared.toISODate qx ∧ r.predictedPrice = round2 qy := by
  simp only [PwShared.seriesListRows, List.mem_flatMap] at h
  obtain ⟨s, hs, hr⟩ := h
  obtain ⟨qx, qy, hp, h1, h2⟩ := mem_seriesRows_shared hr
  exact ⟨s, hs, qx, qy, hp, h1, h2⟩

/-- C5 amended, witness: the bull fixture row under `cfg0`. -/
theorem claim_C5_amended_witness :
    ∃ s ∈ [bullSeries], ∃ qx qy : ℚ, PointV.pt (.num qx) (.num qy) ∈ s.data.getD [] ∧
      (bullRowC "3m").targetDate = PwShared.toISODate qx ∧
      (bullRowC "3m").predictedPrice = round2 qy :=
  claim_C5_amended cfg0 "3m" [bullSeries] (bullRowC "3m") (bullRowC_mem "3m")

/-- C8: the hydration poller evaluates the probe at a fixed 750 ms
interval; it returns a series list only if that list is non-empty and
some series in it has at least one data point, and only when every
earlier probe returned nothing; it raises the timeout error only when
every probe before the deadline returned nothing, at an elapsed time
(750 · nIters) that is at least the full deadline. -/
theorem claim_C8 (states : ℕ → PwShared.PageState) (timeoutMs : ℕ) :
    (∀ (i : ℕ) (s : List RawSeries),
        PwShared.waitForApexSeries states timeoutMs = .ok (i, s) →
        s ≠ [] ∧ (∃ z ∈ s, z.data.getD [] ≠ []) ∧
          (∀ j, j < i → PwShared.probeOnce (states j) = none) ∧
          750 * i < timeoutMs) ∧
    (PwShared.waitForApexSeries states timeoutMs = .error () →
        (∀ j, 750 * j < timeoutMs → PwShared.probeOnce (states j) = none) ∧
          timeoutMs ≤ 750 * PwShared.nIters timeoutMs) := by
  constructor
  · intro i s h
    obtain ⟨h1, _, h3, h4⟩ :=
      pollGo_ok_spec states (PwShared.nIters timeoutMs) 0 i s h
    obtain ⟨hv1, hv2⟩ := probeOnce_some_valid h1
    refine ⟨hv1, hv2, fun j hj => h4 j (Nat.zero_le j) hj, ?_⟩
    have h5 : i < PwShared.nIters timeoutMs := by omega
    simp only [PwShared.nIters] at h5
    omega
  · intro h
    have h6 := pollGo_err_spec states (PwShared.nIters timeoutMs) 0 h
    constructor
    · intro j hj
      refine h6 j (Nat.zero_le j) ?_
      simp only [PwShared.nIters]
      omega
    · simp only [PwShared.nIters]
      omega

/-- C8 witness: a page ready at the first probe (deadline 3000 ms) and a
page that never hydrates (deadline 1500 ms). -/
theorem claim_C8_witness :
    ([bullSeries] ≠ ([] : List RawSeries) ∧
      (∃ z ∈ [bullSeries], z.data.getD [] ≠ []) ∧
      (∀ j, j < 0 → PwShared.probeOnce (statesReady j) = none) ∧
      750 * 0 < 3000) ∧
    ((∀ j, 750 * j < 1500 → PwShared.probeOnce (statesNone j) = none) ∧
      1500 ≤ 750 * PwShared.nIters 1500) :=
  ⟨(claim_C8 statesReady 3000).1 0 [bullSeries] rfl,
   (claim_C8 statesNone 1500).2 rfl⟩
